/-
  Formal model of the bpvo visual-odometry frame-management core
  (src/bpvo/vo.cc), as a shallow embedding in Lean 4.

  Numeric conventions: the C++ code computes with float/double; here all
  scalar quantities are rationals (ℚ), with division total in the Lean
  convention (x / 0 = 0).  4x4 homogeneous transforms are functions
  Fin 4 → Fin 4 → ℚ; the Eigen matrix inverse is an oracle parameter of
  the environment since its numerics live outside this translation unit.

  External collaborators (VisualOdometryFrame, VisualOdometryPoseEstimator,
  cv::Mat, math::RotationMatrixToEulerAngles) are declared in headers that
  are not part of the analysed source; their behaviour is packaged into an
  `Env` of oracle functions, and the frame lifecycle is modelled from the
  specification's contract for the frame collaborator.
-/
import Mathlib

namespace Bpvo

/-- A 4x4 homogeneous transform (Eigen `Matrix44`), entries as rationals. -/
abbrev Mat4 : Type := Fin 4 → Fin 4 → ℚ

/-- The identity transform (`Matrix44::Identity()` / `setIdentity`). -/
def mId : Mat4 := fun i j => if i = j then 1 else 0

/-- Matrix product of 4x4 transforms (Eigen `operator*`). -/
def matMul (A B : Mat4) : Mat4 := fun i j => ∑ k : Fin 4, A i k * B k j

/-- Squaring helper `math::sq`. -/
def sq (x : ℚ) : ℚ := x * x

/-- Modelled from the spec: the solver termination status carried per
pyramid level.  The `OptimizerStatistics` status field is "solver
termination status (ok / error)" and this core only ever compares it
against `kSolverError`; its defining header is not part of the analysed
source. -/
inductive PoseEstimationStatus : Type
  | kSolverOk : PoseEstimationStatus
  | kSolverError : PoseEstimationStatus
deriving DecidableEq

/-- Modelled from the spec: per-pyramid-level optimizer statistics, "one
record per pyramid level: final residual error, number of contributing
pixels, solver termination status" (the defining header is not part of the
analysed source). -/
structure OptimizerStatistics : Type where
  finalError : ℚ
  numPixels : Nat
  status : PoseEstimationStatus
deriving DecidableEq

instance : Inhabited OptimizerStatistics :=
  ⟨{ finalError := 0, numPixels := 0, status := PoseEstimationStatus.kSolverOk }⟩

/-- The configuration fields of `AlgorithmParameters` read by vo.cc. -/
structure AlgorithmParameters : Type where
  maxTestLevel : Nat
  maxSolutionError : ℚ
  minTranslationMagToKeyFrame : ℚ
  minRotationMagToKeyFrame : ℚ
  goodPointThreshold : ℚ
  maxFractionOfGoodPointsToKeyFrame : ℚ

/-- The downward scan of `checkResult` (vo.cc lines 143-146): the loop
`for(i = stats.size()-1; i >= maxTestLevel; --i)` reports whether any level
at an index in `[maxTestLevel, stats.size()-1]` has `kSolverError` status.
The loop only ever touches in-range indices, so total `getD` indexing is
exact. -/
def solverErrorScan (mtl : Nat) (stats : List OptimizerStatistics) : Bool :=
  (List.range stats.length).any fun i =>
    decide (mtl ≤ i) &&
    decide ((stats.getD i default).status = PoseEstimationStatus.kSolverError)

/-- Function `VisualOdometry::Impl::checkResult` (vo.cc lines 127-148): reject when
`stats[maxTestLevel].finalError / stats[maxTestLevel].numPixels` exceeds
`maxSolutionError`, then reject when the scan from the last index down to
`maxTestLevel` finds a `kSolverError` level; otherwise accept. -/
def checkResult (p : AlgorithmParameters) (stats : List OptimizerStatistics) : Bool :=
  if p.maxSolutionError <
      (stats.getD p.maxTestLevel default).finalError
        / ((stats.getD p.maxTestLevel default).numPixels : ℚ)
  then false
  else ! solverErrorScan p.maxTestLevel stats

/-- Variant of `checkResult` with every unchecked operation guarded: the vector access
`stats[maxTestLevel]` is performed through an optional lookup, and the
division is guarded against a zero `numPixels` denominator.  This is the
reference against which the in-bounds/definedness safety of `checkResult`
is stated. -/
def checkResultChecked (p : AlgorithmParameters) (stats : List OptimizerStatistics) :
    Option Bool :=
  match stats[p.maxTestLevel]? with
  | none => none
  | some finStats =>
    if finStats.numPixels = 0 then none
    else if p.maxSolutionError < finStats.finalError / (finStats.numPixels : ℚ)
    then some false
    else some (! solverErrorScan p.maxTestLevel stats)

/-- Keyframing reasons (`KeyFramingReason` in the bpvo types header). -/
inductive KeyFramingReason : Type
  | kNoKeyFraming : KeyFramingReason
  | kLargeTranslation : KeyFramingReason
  | kLargeRotation : KeyFramingReason
  | kSmallFracOfGoodPoints : KeyFramingReason
  | kFirstFrame : KeyFramingReason
  | kEstimationFailed : KeyFramingReason
deriving DecidableEq

/-- Expression `pose.block<3,1>(0,3).squaredNorm()`: squared norm of the translation
column of a 4x4 homogeneous transform. -/
def tSquaredNorm (pose : Mat4) : ℚ :=
  sq (pose 0 3) + sq (pose 1 3) + sq (pose 2 3)

/-- Expression `math::RotationMatrixToEulerAngles(pose).squaredNorm()` for an Euler
extraction oracle `euler` (the conversion itself is transcendental external
math). -/
def rSquaredNorm (euler : Mat4 → Fin 3 → ℚ) (pose : Mat4) : ℚ :=
  sq (euler pose 0) + sq (euler pose 1) + sq (euler pose 2)

/-- Function `VisualOdometry::Impl::shouldKeyFrame` (vo.cc lines 249-274), with the
Euler-angle extraction and the estimator's good-point fraction supplied as
oracles. -/
def shouldKeyFrame (p : AlgorithmParameters) (euler : Mat4 → Fin 3 → ℚ)
    (fracGood : ℚ → ℚ) (pose : Mat4) : KeyFramingReason :=
  if sq p.minTranslationMagToKeyFrame < tSquaredNorm pose then
    KeyFramingReason.kLargeTranslation
  else if sq p.minRotationMagToKeyFrame < rSquaredNorm euler pose then
    KeyFramingReason.kLargeRotation
  else if fracGood p.goodPointThreshold < p.maxFractionOfGoodPointsToKeyFrame then
    KeyFramingReason.kSmallFracOfGoodPoints
  else
    KeyFramingReason.kNoKeyFraming

/-- Modelled from the spec: the lifecycle states of a
`VisualOdometryFrame`, "States: empty (never received data), raw (has
image/disparity but not yet a reference template), templated (eligible to
serve as alignment reference)" (vo_frame.h is not part of the analysed
source). -/
inductive FrameState : Type
  | fsEmpty : FrameState
  | fsRaw : FrameState
  | fsTemplated : FrameState
deriving DecidableEq

/-- One frame buffer slot: `id` names the underlying heap object owned by
the slot (slots exchange ownership by `std::swap`, never copying), `data`
tags the image/disparity pair last stored by `setData`, `st` is the
lifecycle state. -/
structure VOFrame : Type where
  id : Nat
  data : Nat
  st : FrameState
deriving DecidableEq

/-- Modelled from the spec: `setData(image, disparity)` "stores raw sensor
data, invalidating any prior template". -/
def setData (d : Nat) (f : VOFrame) : VOFrame :=
  { f with data := d, st := FrameState.fsRaw }

/-- Modelled from the spec: `setTemplate()` "promotes raw data into leveled
templates". -/
def setTemplate (f : VOFrame) : VOFrame :=
  { f with st := FrameState.fsTemplated }

/-- Modelled from the spec: `clear()` "returns a slot to empty". -/
def clearFrame (f : VOFrame) : VOFrame :=
  { f with st := FrameState.fsEmpty }

/-- Modelled from the spec: `hasTemplate()` "reports whether the slot is
eligible as reference". -/
def hasTemplate (f : VOFrame) : Bool :=
  decide (f.st = FrameState.fsTemplated)

/-- Modelled from the spec: `empty()` "reports no data at all". -/
def frameEmpty (f : VOFrame) : Bool :=
  decide (f.st = FrameState.fsEmpty)

/-- A 3-D tracked point (the template's `Point`; opaque to this core). -/
abbrev Point : Type := ℚ × ℚ × ℚ

/-- RGBA color, `PointWithInfo::Color`. -/
abbrev Color : Type := Nat × Nat × Nat × Nat

/-- Point cloud entry: tracked point, sampled color, estimator weight. -/
abbrev PointWithInfo : Type := Point × Color × ℚ

/-- Grayscale image with integer extents (`cv::Mat` as consumed by
`GetColor`): `pix r c` is the 8-bit intensity at row `r`, column `c`. -/
structure Image : Type where
  rows : ℤ
  cols : ℤ
  pix : ℤ → ℤ → Nat

/-- Function `GetColor` (vo.cc lines 298-308): project the point through the warp;
when the image coordinate `uv` satisfies
`uv[1] >= 0 && uv[1] < rows && uv[0] >= 0 && uv[0] < cols` sample the
grayscale intensity, otherwise use 0; replicate over the color channels
with alpha 255. -/
def GetColor (img : Image) (warp : Point → ℤ × ℤ) (pt : Point) : Color :=
  let uv := warp pt
  let c : Nat :=
    if 0 ≤ uv.2 ∧ uv.2 < img.rows ∧ 0 ≤ uv.1 ∧ uv.1 < img.cols
    then img.pix uv.2 uv.1 else 0
  (c, c, c, 255)

/-- Function `VisualOdometry::Impl::getPointCloudFromRefFrame` (vo.cc lines
310-332), with the reference frame's tracked points, the estimator
weights, the reference image and the warp supplied as data: on a
point/weight count mismatch no cloud is produced; otherwise one
`PointWithInfo` per tracked point. -/
def getPointCloudFromRefFrame (points : List Point) (weights : List ℚ)
    (img : Image) (warp : Point → ℤ × ℤ) : Option (List PointWithInfo) :=
  if points.length ≠ weights.length then none
  else some (List.zipWith (fun pt w => (pt, GetColor img warp pt, w)) points weights)

/-- Result of one `addFrame` call (`Result` in the bpvo types header;
fields as read/written by vo.cc). -/
structure Result : Type where
  success : Bool
  displacement : Mat4
  covariance : Mat4
  optimizerStatistics : List OptimizerStatistics
  isKeyFrame : Bool
  keyFramingReason : KeyFramingReason
  pointCloud : Option (List PointWithInfo)

/-- What one call to `VisualOdometryPoseEstimator::estimatePose` produces,
together with the estimator state queryable immediately afterwards
(`getFractionOfGoodPoints`, `getWeights`). -/
structure EstimateOutcome : Type where
  stats : List OptimizerStatistics
  pose : Mat4
  fracGood : ℚ → ℚ
  weights : List ℚ

/-- Oracle environment for the external collaborators: the pose estimator
(keyed by the data tags of the reference and current frames and the seed
pose), the Eigen 4x4 inverse, Euler-angle extraction, the template point
lists, images and warps by data tag and level, the per-frame pyramid level
count, the default-constructed `Result` and the default-constructed
`OptimizerStatistics` used by `resize`. -/
structure Env : Type where
  estimatePose : Nat → Nat → Mat4 → EstimateOutcome
  minv : Mat4 → Mat4
  euler : Mat4 → Fin 3 → ℚ
  pointsAt : Nat → Nat → List Point
  imageOf : Nat → Image
  warpAt : Nat → Nat → Point → ℤ × ℤ
  numLevels : Nat
  r0 : Result
  defStats : OptimizerStatistics

/-- The mutable session state of `VisualOdometry::Impl`: the three frame
slots, the accumulated pose since the last keyframe, and the trajectory. -/
structure VOState : Type where
  ref : VOFrame
  cur : VOFrame
  prev : VOFrame
  T_kf : Mat4
  trajectory : List Mat4

/-- The state after `Impl`'s constructor: three distinct empty frames,
identity accumulated pose, empty trajectory. -/
def initState : VOState :=
  { ref := { id := 0, data := 0, st := FrameState.fsEmpty }
  , cur := { id := 1, data := 0, st := FrameState.fsEmpty }
  , prev := { id := 2, data := 0, st := FrameState.fsEmpty }
  , T_kf := mId
  , trajectory := [] }

/-- Function `FirstFrameResult` (vo.cc lines 113-125). -/
def FirstFrameResult (defStats : OptimizerStatistics) (nLevels : Nat) : Result :=
  { success := false
  , displacement := mId
  , covariance := mId
  , optimizerStatistics := List.replicate nLevels defStats
  , isKeyFrame := true
  , keyFramingReason := KeyFramingReason.kFirstFrame
  , pointCloud := none }

/-- The primary estimation call (vo.cc line 167): reference against the
just-ingested current data `d`, seeded with `T_kf * guess`. -/
def primaryOutcome (env : Env) (s : VOState) (d : Nat) (guess : Mat4) : EstimateOutcome :=
  env.estimatePose s.ref.data d (matMul s.T_kf guess)

/-- The backup re-estimation call (vo.cc line 216): the promoted previous
frame against the current data `d`, seeded with the raw caller guess. -/
def backupOutcome (env : Env) (s : VOState) (d : Nat) (guess : Mat4) : EstimateOutcome :=
  env.estimatePose s.prev.data d guess

/-- The reason attached to an estimate (vo.cc lines 169-178): validator
rejection yields `kEstimationFailed`, otherwise the keyframing decision
engine classifies the estimated pose. -/
def keyReasonOf (p : AlgorithmParameters) (env : Env) (out : EstimateOutcome) :
    KeyFramingReason :=
  if checkResult p out.stats then shouldKeyFrame p env.euler out.fracGood out.pose
  else KeyFramingReason.kEstimationFailed

/-- The point cloud extracted from the outgoing reference frame (vo.cc line
197): points of the reference at `maxTestLevel`, the weights of the last
estimation, the reference image and warp. -/
def refCloud (env : Env) (p : AlgorithmParameters) (s : VOState) (w : List ℚ) :
    Option (List PointWithInfo) :=
  getPointCloudFromRefFrame (env.pointsAt s.ref.data p.maxTestLevel) w
    (env.imageOf s.ref.data) (env.warpAt s.ref.data p.maxTestLevel)

/-- Observable output of one `addFrame` call: the returned `Result`, the
post-call session state, and instrumentation logs recording every
`estimatePose` call (reference data tag, current data tag, seed pose) and
every pose passed to `shouldKeyFrame`, in call order. -/
structure StepOut : Type where
  result : Result
  state : VOState
  estCalls : List (Nat × Nat × Mat4)
  skfCalls : List Mat4

/-- Function `VisualOdometry::Impl::addFrame` (vo.cc lines 150-247), one call:
`d` tags the incoming image/disparity pair.  Mirrors the source: ingest
into the current slot; on an untemplated reference take the first-frame
path; otherwise estimate, validate, classify; `isKeyFrame` is the
comparison `kNoKeyFraming != reason`; the non-keyframe path swaps
current with previous and composes the displacement against the inverse
of the accumulated pose; the keyframe path resets the accumulated pose,
extracts the point cloud from the outgoing reference, and branches on
`prev_frame->empty()` between the starvation path (adopt current as
reference) and the backup path (promote previous to reference, clear the
vacated slot, re-estimate with the raw guess and re-classify). -/
def addFrame (env : Env) (p : AlgorithmParameters) (s : VOState) (d : Nat)
    (guess : Mat4) : StepOut :=
  let cur := setData d s.cur
  if hasTemplate s.ref then
    let out := primaryOutcome env s d guess
    let reason1 := keyReasonOf p env out
    let skfLog : List Mat4 := if checkResult p out.stats then [out.pose] else []
    if reason1 = KeyFramingReason.kNoKeyFraming then
      { result := { env.r0 with
          optimizerStatistics := out.stats
        , success := checkResult p out.stats
        , isKeyFrame := false
        , keyFramingReason := reason1
        , displacement := matMul out.pose (env.minv s.T_kf) }
      , state := { ref := s.ref, cur := s.prev, prev := cur
                 , T_kf := out.pose, trajectory := s.trajectory }
      , estCalls := [(s.ref.data, d, matMul s.T_kf guess)]
      , skfCalls := skfLog }
    else
      let cloud := refCloud env p s out.weights
      if frameEmpty s.prev then
        { result := { env.r0 with
            optimizerStatistics := out.stats
          , success := false
          , isKeyFrame := true
          , keyFramingReason := reason1
          , pointCloud := cloud }
        , state := { ref := setTemplate cur, cur := s.ref, prev := s.prev
                   , T_kf := mId, trajectory := s.trajectory }
        , estCalls := [(s.ref.data, d, matMul s.T_kf guess)]
        , skfCalls := skfLog }
      else
        let out2 := backupOutcome env s d guess
        let reason2 := keyReasonOf p env out2
        { result := { env.r0 with
            optimizerStatistics := out2.stats
          , success := if reason2 = KeyFramingReason.kNoKeyFraming
                       then checkResult p out2.stats else false
          , isKeyFrame := true
          , keyFramingReason := reason2
          , displacement := out2.pose
          , pointCloud := cloud }
        , state := { ref := setTemplate s.prev, cur := cur, prev := clearFrame s.ref
                   , T_kf := out2.pose, trajectory := s.trajectory }
        , estCalls := [(s.ref.data, d, matMul s.T_kf guess), (s.prev.data, d, guess)]
        , skfCalls := skfLog ++ (if checkResult p out2.stats then [out2.pose] else []) }
  else
    { result := FirstFrameResult env.defStats env.numLevels
    , state := { ref := setTemplate cur, cur := s.ref, prev := s.prev
               , T_kf := s.T_kf, trajectory := s.trajectory ++ [s.T_kf] }
    , estCalls := []
    , skfCalls := [] }

/-! Concrete fixtures used by witnesses and counterexamples. -/

/-- Statistics that the validator accepts under `pKF`/`pTrack`. -/
def goodStats : List OptimizerStatistics :=
  [{ finalError := 0, numPixels := 1, status := PoseEstimationStatus.kSolverOk }]

/-- Statistics whose error ratio 10/1 exceeds the threshold 1. -/
def badStats : List OptimizerStatistics :=
  [{ finalError := 10, numPixels := 1, status := PoseEstimationStatus.kSolverOk }]

/-- All-ones transform: its translation column has squared norm 3. -/
def onesMat : Mat4 := fun _ _ => 1

/-- Parameters under which `onesMat` triggers a large-translation keyframe. -/
def pKF : AlgorithmParameters :=
  { maxTestLevel := 0, maxSolutionError := 1, minTranslationMagToKeyFrame := 0
  , minRotationMagToKeyFrame := 0, goodPointThreshold := 0
  , maxFractionOfGoodPointsToKeyFrame := 0 }

/-- Parameters under which `onesMat` triggers no keyframe. -/
def pTrack : AlgorithmParameters :=
  { maxTestLevel := 0, maxSolutionError := 1, minTranslationMagToKeyFrame := 100
  , minRotationMagToKeyFrame := 100, goodPointThreshold := 0
  , maxFractionOfGoodPointsToKeyFrame := 0 }

/-- A 0x0 image: every projection is out of bounds. -/
def emptyImage : Image := { rows := 0, cols := 0, pix := fun _ _ => 0 }

/-- A default-constructed `Result` placeholder. -/
def r0def : Result :=
  { success := false, displacement := mId, covariance := mId
  , optimizerStatistics := [], isKeyFrame := false
  , keyFramingReason := KeyFramingReason.kNoKeyFraming, pointCloud := none }

/-- Environment whose pose estimator always returns the fixed outcome. -/
def mkEnv (out : EstimateOutcome) : Env :=
  { estimatePose := fun _ _ _ => out
  , minv := fun m => m
  , euler := fun _ _ => 0
  , pointsAt := fun _ _ => []
  , imageOf := fun _ => emptyImage
  , warpAt := fun _ _ _ => (0, 0)
  , numLevels := 1
  , r0 := r0def
  , defStats := default }

/-- Accepted estimate with an all-ones pose. -/
def outGood : EstimateOutcome :=
  { stats := goodStats, pose := onesMat, fracGood := fun _ => 1, weights := [] }

/-- Validator-rejected estimate. -/
def outBad : EstimateOutcome :=
  { stats := badStats, pose := onesMat, fracGood := fun _ => 1, weights := [] }

def envGood : Env := mkEnv outGood

def envBad : Env := mkEnv outBad

/-- Session state in steady tracking: templated reference, raw current and
previous candidates, distinct slot identities. -/
def sTrack : VOState :=
  { ref := { id := 0, data := 5, st := FrameState.fsTemplated }
  , cur := { id := 1, data := 0, st := FrameState.fsRaw }
  , prev := { id := 2, data := 4, st := FrameState.fsRaw }
  , T_kf := mId
  , trajectory := [mId] }

/-- Session state with a templated reference but an empty previous slot. -/
def sNoPrev : VOState :=
  { ref := { id := 0, data := 5, st := FrameState.fsTemplated }
  , cur := { id := 1, data := 0, st := FrameState.fsRaw }
  , prev := { id := 2, data := 0, st := FrameState.fsEmpty }
  , T_kf := mId
  , trajectory := [mId] }

/-! Evaluation lemmas for the fixtures (concrete rational arithmetic is
not kernel-reducible, so these are established once by simp/norm_num and
reused when discharging witness hypotheses). -/

lemma checkResult_goodStats : checkResult pKF goodStats = true := by
  norm_num [checkResult, solverErrorScan, goodStats, pKF, List.range_succ]
  decide

lemma checkResult_badStats : checkResult pKF badStats = false := by
  norm_num [checkResult, badStats, pKF]

lemma checkResult_goodStats_pTrack : checkResult pTrack goodStats = true := by
  norm_num [checkResult, solverErrorScan, goodStats, pTrack, List.range_succ]
  decide

lemma tNorm_onesMat : tSquaredNorm onesMat = 3 := by
  norm_num [tSquaredNorm, sq, onesMat]

lemma skf_pKF_onesMat (euler : Mat4 → Fin 3 → ℚ) (fg : ℚ → ℚ) :
    shouldKeyFrame pKF euler fg onesMat = KeyFramingReason.kLargeTranslation := by
  rw [shouldKeyFrame, if_pos]
  rw [tNorm_onesMat]
  norm_num [pKF, sq]

lemma skf_pTrack_onesMat (euler : Mat4 → Fin 3 → ℚ) (heuler : euler onesMat = fun _ => 0) :
    shouldKeyFrame pTrack euler (fun _ => 1) onesMat = KeyFramingReason.kNoKeyFraming := by
  rw [shouldKeyFrame, if_neg, if_neg, if_neg]
  · norm_num [pTrack]
  · rw [rSquaredNorm, heuler]
    norm_num [pTrack, sq]
  · rw [tNorm_onesMat]
    norm_num [pTrack, sq]

/-! Helper lemmas shared by several claim theorems. -/

lemma any_eq_of_agree {α : Type} (l : List α) (f g : α → Bool)
    (h : ∀ a ∈ l, f a = g a) : l.any f = l.any g := by
  induction l with
  | nil => rfl
  | cons a l ih =>
    simp only [List.any_cons, h a (List.mem_cons_self a l),
      ih fun b hb => h b (List.mem_cons_of_mem _ hb)]

/-- Lemma: `checkResult` reads the statistics vector only at indices at or above
`maxTestLevel`. -/
lemma checkResult_locality (p : AlgorithmParameters)
    (stats stats2 : List OptimizerStatistics)
    (hlen : stats.length = stats2.length)
    (hag : ∀ i, p.maxTestLevel ≤ i → stats.getD i default = stats2.getD i default) :
    checkResult p stats = checkResult p stats2 := by
  have h0 := hag p.maxTestLevel le_rfl
  have hscan : solverErrorScan p.maxTestLevel stats
      = solverErrorScan p.maxTestLevel stats2 := by
    unfold solverErrorScan
    rw [hlen]
    refine any_eq_of_agree _ _ _ fun i _ => ?_
    by_cases hmtl : p.maxTestLevel ≤ i
    · rw [hag i hmtl]
    · simp [hmtl]
  unfold checkResult
  rw [h0, hscan]

/-- C5: for every statistics vector, `checkResult` returns true iff
`stats[maxTestLevel].finalError / stats[maxTestLevel].numPixels` does not
exceed the configured error threshold and no level at an index from the
last index down to `maxTestLevel` inclusive has solver-error status;
levels at indices below `maxTestLevel` are never examined. -/
theorem checkResult_spec (p : AlgorithmParameters)
    (stats : List OptimizerStatistics)
    (h1 : p.maxTestLevel < stats.length)
    (h2 : (stats.getD p.maxTestLevel default).numPixels ≠ 0) :
    (checkResult p stats = true ↔
      ((stats.getD p.maxTestLevel default).finalError
          / ((stats.getD p.maxTestLevel default).numPixels : ℚ) ≤ p.maxSolutionError
        ∧ ∀ i, p.maxTestLevel ≤ i → i < stats.length →
            (stats.getD i default).status ≠ PoseEstimationStatus.kSolverError))
    ∧ ∀ stats2 : List OptimizerStatistics, stats.length = stats2.length →
        (∀ i, p.maxTestLevel ≤ i → stats.getD i default = stats2.getD i default) →
        checkResult p stats = checkResult p stats2 := by
  constructor
  · unfold checkResult
    by_cases hlt : p.maxSolutionError <
        (stats.getD p.maxTestLevel default).finalError
          / ((stats.getD p.maxTestLevel default).numPixels : ℚ)
    · simp only [hlt, if_true]
      constructor
      · intro h
        exact absurd h (by simp)
      · rintro ⟨hle, -⟩
        exact absurd hlt (not_lt.mpr hle)
    · simp only [hlt, if_false, Bool.not_eq_true', not_lt.mp hlt, true_and]
      unfold solverErrorScan
      rw [← Bool.not_eq_true, List.any_eq_true]
      push_neg
      constructor
      · intro h i hmtl hilen
        have := h i (by simpa using hilen)
        simpa [hmtl] using this
      · intro h i hi
        simp only [List.mem_range] at hi
        by_cases hmtl : p.maxTestLevel ≤ i
        · simpa [hmtl] using h i hmtl hi
        · simp [hmtl]
  · exact checkResult_locality p stats

/-- C5 witness: a concrete accepted statistics vector. -/
theorem checkResult_spec_witness :
    checkResult pKF goodStats = true ↔
      ((goodStats.getD pKF.maxTestLevel default).finalError
          / ((goodStats.getD pKF.maxTestLevel default).numPixels : ℚ) ≤ pKF.maxSolutionError
        ∧ ∀ i, pKF.maxTestLevel ≤ i → i < goodStats.length →
            (goodStats.getD i default).status ≠ PoseEstimationStatus.kSolverError) :=
  (checkResult_spec pKF goodStats (by decide) (by decide)).1

/-- C10: the guarded `checkResultChecked` agrees with `checkResult` under
the precondition `maxTestLevel < stats.length` and a nonzero pixel count
at the test level; for a statistics vector of size at most `maxTestLevel`
the access `stats[maxTestLevel]` is out of bounds; and `checkResult` reads
the vector only at indices in `[maxTestLevel, stats.size - 1]`. -/
theorem checkResult_access_spec (p : AlgorithmParameters)
    (stats : List OptimizerStatistics) :
    (p.maxTestLevel < stats.length →
      (stats.getD p.maxTestLevel default).numPixels ≠ 0 →
      checkResultChecked p stats = some (checkResult p stats))
    ∧ (stats.length ≤ p.maxTestLevel → checkResultChecked p stats = none)
    ∧ ∀ stats2 : List OptimizerStatistics, stats.length = stats2.length →
        (∀ i, p.maxTestLevel ≤ i → stats.getD i default = stats2.getD i default) →
        checkResult p stats = checkResult p stats2 := by
  refine ⟨?_, ?_, checkResult_locality p stats⟩
  · intro h1 h2
    have hsome : stats[p.maxTestLevel]? = some (stats.getD p.maxTestLevel default) := by
      rw [List.getElem?_eq_getElem h1, List.getD_eq_getElem stats default h1]
    unfold checkResultChecked checkResult
    split
    · rename_i heq
      rw [hsome] at heq
      cases heq
    · rename_i fin heq
      rw [hsome] at heq
      injection heq with heq
      subst heq
      rw [if_neg h2]
      by_cases hlt : p.maxSolutionError <
          (stats.getD p.maxTestLevel default).finalError
            / ((stats.getD p.maxTestLevel default).numPixels : ℚ)
      · rw [if_pos hlt, if_pos hlt]
      · rw [if_neg hlt, if_neg hlt]
  · intro hle
    unfold checkResultChecked
    rw [List.getElem?_eq_none hle]

/-- C10 witness: concrete in-bounds and out-of-bounds instantiations. -/
theorem checkResult_access_spec_witness :
    checkResultChecked pKF goodStats = some (checkResult pKF goodStats)
    ∧ checkResultChecked pKF ([] : List OptimizerStatistics) = none :=
  ⟨(checkResult_access_spec pKF goodStats).1 (by decide) (by decide),
   (checkResult_access_spec pKF ([] : List OptimizerStatistics)).2.1 (by decide)⟩

/-- C6: the decision engine `shouldKeyFrame` evaluates translation, then rotation, then
good-point fraction, returning the first trigger that fires and
`kNoKeyFraming` otherwise; in particular when both the squared translation
norm and the squared rotation norm exceed their thresholds the reason is
`kLargeTranslation`. -/
theorem shouldKeyFrame_priority (p : AlgorithmParameters)
    (euler : Mat4 → Fin 3 → ℚ) (fracGood : ℚ → ℚ) (pose : Mat4) :
    (sq p.minTranslationMagToKeyFrame < tSquaredNorm pose →
      shouldKeyFrame p euler fracGood pose = KeyFramingReason.kLargeTranslation)
    ∧ (¬ sq p.minTranslationMagToKeyFrame < tSquaredNorm pose →
        sq p.minRotationMagToKeyFrame < rSquaredNorm euler pose →
        shouldKeyFrame p euler fracGood pose = KeyFramingReason.kLargeRotation)
    ∧ (¬ sq p.minTranslationMagToKeyFrame < tSquaredNorm pose →
        ¬ sq p.minRotationMagToKeyFrame < rSquaredNorm euler pose →
        fracGood p.goodPointThreshold < p.maxFractionOfGoodPointsToKeyFrame →
        shouldKeyFrame p euler fracGood pose = KeyFramingReason.kSmallFracOfGoodPoints)
    ∧ (¬ sq p.minTranslationMagToKeyFrame < tSquaredNorm pose →
        ¬ sq p.minRotationMagToKeyFrame < rSquaredNorm euler pose →
        ¬ fracGood p.goodPointThreshold < p.maxFractionOfGoodPointsToKeyFrame →
        shouldKeyFrame p euler fracGood pose = KeyFramingReason.kNoKeyFraming)
    ∧ (sq p.minTranslationMagToKeyFrame < tSquaredNorm pose →
        sq p.minRotationMagToKeyFrame < rSquaredNorm euler pose →
        shouldKeyFrame p euler fracGood pose = KeyFramingReason.kLargeTranslation) := by
  refine ⟨?_, ?_, ?_, ?_, ?_⟩ <;> intros <;> simp [shouldKeyFrame, *]

/-- C6 witness: a pose exceeding both thresholds reports large
translation. -/
theorem shouldKeyFrame_priority_witness :
    shouldKeyFrame pKF (fun _ _ => 1) (fun _ => 1) onesMat
      = KeyFramingReason.kLargeTranslation :=
  (shouldKeyFrame_priority pKF (fun _ _ => 1) (fun _ => 1) onesMat).2.2.2.2
    (by rw [tNorm_onesMat]; norm_num [pKF, sq])
    (by norm_num [rSquaredNorm, sq, pKF])

/-- C9: the point cloud extractor yields no cloud when the tracked-point
count differs from the weight count; on matching counts it yields one
entry per tracked point pairing the point, its sampled color and its
weight; and an out-of-bounds projection yields zero intensity replicated
across the color channels with full opacity. -/
theorem pointCloud_spec (points : List Point) (weights : List ℚ)
    (img : Image) (warp : Point → ℤ × ℤ) :
    (points.length ≠ weights.length →
      getPointCloudFromRefFrame points weights img warp = none)
    ∧ (points.length = weights.length →
        ∃ cloud, getPointCloudFromRefFrame points weights img warp = some cloud
          ∧ cloud.length = points.length
          ∧ ∀ i, i < points.length →
              cloud.getD i default =
                (points.getD i default,
                 GetColor img warp (points.getD i default),
                 weights.getD i default))
    ∧ ∀ pt, ¬ (0 ≤ (warp pt).2 ∧ (warp pt).2 < img.rows
                ∧ 0 ≤ (warp pt).1 ∧ (warp pt).1 < img.cols) →
        GetColor img warp pt = ((0 : Nat), (0 : Nat), (0 : Nat), (255 : Nat)) := by
  refine ⟨?_, ?_, ?_⟩
  · intro h
    simp [getPointCloudFromRefFrame, h]
  · intro h
    refine ⟨List.zipWith (fun pt w => (pt, GetColor img warp pt, w)) points weights,
      ?_, ?_, ?_⟩
    · simp [getPointCloudFromRefFrame, h]
    · simp [List.length_zipWith, h]
    · intro i hi
      have hiw : i < weights.length := h ▸ hi
      have hiz : i < (List.zipWith (fun pt w => (pt, GetColor img warp pt, w))
          points weights).length := by
        simp [List.length_zipWith, h]
        omega
      rw [List.getD_eq_getElem _ default hiz, List.getElem_zipWith,
        List.getD_eq_getElem points default hi, List.getD_eq_getElem weights default hiw]
  · intro pt h
    simp [GetColor, h]

/-- C9 witness: a mismatch yields no cloud; an out-of-bounds projection
into the empty image yields the sentinel color. -/
theorem pointCloud_spec_witness :
    getPointCloudFromRefFrame [default] [] emptyImage (fun _ => (0, 0)) = none
    ∧ GetColor emptyImage (fun _ => (0, 0)) default
        = ((0 : Nat), (0 : Nat), (0 : Nat), (255 : Nat)) :=
  ⟨(pointCloud_spec [default] [] emptyImage (fun _ => (0, 0))).1 (by decide),
   (pointCloud_spec [default] [] emptyImage (fun _ => (0, 0))).2.2 default (by decide)⟩

/-- C7: the first `addFrame` call on a fresh instance returns
success=false, isKeyFrame=true, reason=first-frame, identity displacement
and covariance, one statistics slot per pyramid level, and no point
cloud; the current frame is swapped into the reference slot and promoted
to template, and the identity pose is appended to the trajectory. -/
theorem addFrame_first_frame (env : Env) (p : AlgorithmParameters) (d : Nat)
    (guess : Mat4) :
    (addFrame env p initState d guess).result.success = false
    ∧ (addFrame env p initState d guess).result.isKeyFrame = true
    ∧ (addFrame env p initState d guess).result.keyFramingReason
        = KeyFramingReason.kFirstFrame
    ∧ (addFrame env p initState d guess).result.displacement = mId
    ∧ (addFrame env p initState d guess).result.covariance = mId
    ∧ (addFrame env p initState d guess).result.optimizerStatistics.length
        = env.numLevels
    ∧ (addFrame env p initState d guess).result.pointCloud = none
    ∧ (addFrame env p initState d guess).state.ref
        = setTemplate (setData d initState.cur)
    ∧ hasTemplate (addFrame env p initState d guess).state.ref = true
    ∧ (addFrame env p initState d guess).state.cur = initState.ref
    ∧ (addFrame env p initState d guess).state.trajectory = [mId]
    ∧ (addFrame env p initState d guess).estCalls = [] := by
  have href : hasTemplate initState.ref = false := by decide
  simp [addFrame, href, initState, FirstFrameResult, setTemplate, setData, hasTemplate]

/-- C4: on an accepted primary estimate classified as no-keyframe, the
returned displacement is `T_est * T_kf⁻¹` (with `T_kf` the pre-call
accumulated pose), the accumulated pose becomes `T_est`, and the current
frame becomes the new previous candidate via a current-previous slot
swap. -/
theorem addFrame_tracking_step (env : Env) (p : AlgorithmParameters)
    (s : VOState) (d : Nat) (guess : Mat4)
    (href : hasTemplate s.ref = true)
    (hacc : checkResult p (primaryOutcome env s d guess).stats = true)
    (hno : shouldKeyFrame p env.euler (primaryOutcome env s d guess).fracGood
        (primaryOutcome env s d guess).pose = KeyFramingReason.kNoKeyFraming) :
    (addFrame env p s d guess).result.displacement
      = matMul (primaryOutcome env s d guess).pose (env.minv s.T_kf)
    ∧ (addFrame env p s d guess).state.T_kf = (primaryOutcome env s d guess).pose
    ∧ (addFrame env p s d guess).state.prev = setData d s.cur
    ∧ (addFrame env p s d guess).state.cur = s.prev
    ∧ (addFrame env p s d guess).state.ref = s.ref
    ∧ (addFrame env p s d guess).result.isKeyFrame = false
    ∧ (addFrame env p s d guess).result.success = true := by
  simp [addFrame, keyReasonOf, href, hacc, hno]

/-- C4 witness. -/
theorem addFrame_tracking_step_witness :
    (addFrame envGood pTrack sTrack 7 mId).result.displacement
      = matMul (primaryOutcome envGood sTrack 7 mId).pose (envGood.minv sTrack.T_kf)
    ∧ (addFrame envGood pTrack sTrack 7 mId).state.T_kf
      = (primaryOutcome envGood sTrack 7 mId).pose
    ∧ (addFrame envGood pTrack sTrack 7 mId).state.prev = setData 7 sTrack.cur
    ∧ (addFrame envGood pTrack sTrack 7 mId).state.cur = sTrack.prev
    ∧ (addFrame envGood pTrack sTrack 7 mId).state.ref = sTrack.ref
    ∧ (addFrame envGood pTrack sTrack 7 mId).result.isKeyFrame = false
    ∧ (addFrame envGood pTrack sTrack 7 mId).result.success = true :=
  addFrame_tracking_step envGood pTrack sTrack 7 mId (by decide)
    checkResult_goodStats_pTrack (skf_pTrack_onesMat envGood.euler rfl)

/-- C3: when a keyframe is declared and the previous slot is empty, the
call returns success=false with the keyframing reason unchanged from the
original trigger, the current frame is swapped into the reference slot
and promoted to template, and no second pose estimation is attempted. -/
theorem addFrame_keyframe_starvation (env : Env) (p : AlgorithmParameters)
    (s : VOState) (d : Nat) (guess : Mat4)
    (href : hasTemplate s.ref = true)
    (hkf : keyReasonOf p env (primaryOutcome env s d guess)
        ≠ KeyFramingReason.kNoKeyFraming)
    (hprev : frameEmpty s.prev = true) :
    (addFrame env p s d guess).result.success = false
    ∧ (addFrame env p s d guess).result.keyFramingReason
        = keyReasonOf p env (primaryOutcome env s d guess)
    ∧ (addFrame env p s d guess).result.isKeyFrame = true
    ∧ (addFrame env p s d guess).state.ref = setTemplate (setData d s.cur)
    ∧ (addFrame env p s d guess).state.cur = s.ref
    ∧ (addFrame env p s d guess).estCalls
        = [(s.ref.data, d, matMul s.T_kf guess)] := by
  simp [addFrame, href, hkf, hprev]

/-- C3 witness. -/
theorem addFrame_keyframe_starvation_witness :
    (addFrame envGood pKF sNoPrev 7 mId).result.success = false
    ∧ (addFrame envGood pKF sNoPrev 7 mId).result.keyFramingReason
        = keyReasonOf pKF envGood (primaryOutcome envGood sNoPrev 7 mId)
    ∧ (addFrame envGood pKF sNoPrev 7 mId).result.isKeyFrame = true
    ∧ (addFrame envGood pKF sNoPrev 7 mId).state.ref
        = setTemplate (setData 7 sNoPrev.cur)
    ∧ (addFrame envGood pKF sNoPrev 7 mId).state.cur = sNoPrev.ref
    ∧ (addFrame envGood pKF sNoPrev 7 mId).estCalls
        = [(sNoPrev.ref.data, 7, matMul sNoPrev.T_kf mId)] :=
  addFrame_keyframe_starvation envGood pKF sNoPrev 7 mId (by decide)
    (by simp [keyReasonOf, show checkResult pKF (primaryOutcome envGood sNoPrev 7 mId).stats
          = true from checkResult_goodStats,
        show shouldKeyFrame pKF envGood.euler (primaryOutcome envGood sNoPrev 7 mId).fracGood
            (primaryOutcome envGood sNoPrev 7 mId).pose
          = KeyFramingReason.kLargeTranslation from skf_pKF_onesMat _ _])
    (by decide)

/-- C2: when a keyframe is declared and the previous slot is non-empty,
the previous frame is swapped into the reference slot, the vacated
previous slot is cleared, pose estimation is re-run exactly once against
the new reference using the raw caller guess, the returned displacement
equals the new estimate and the accumulated pose is set to it; a rejected
second estimate yields reason=estimation-failed and success=false, an
accepted second estimate that still triggers keyframing yields
success=false while the point cloud and statistics are still returned,
and otherwise success=true. -/
theorem addFrame_keyframe_backup (env : Env) (p : AlgorithmParameters)
    (s : VOState) (d : Nat) (guess : Mat4)
    (href : hasTemplate s.ref = true)
    (hkf : keyReasonOf p env (primaryOutcome env s d guess)
        ≠ KeyFramingReason.kNoKeyFraming)
    (hprev : frameEmpty s.prev = false) :
    (addFrame env p s d guess).state.ref = setTemplate s.prev
    ∧ (addFrame env p s d guess).state.prev = clearFrame s.ref
    ∧ (addFrame env p s d guess).estCalls
        = [(s.ref.data, d, matMul s.T_kf guess), (s.prev.data, d, guess)]
    ∧ (addFrame env p s d guess).result.displacement
        = (backupOutcome env s d guess).pose
    ∧ (addFrame env p s d guess).state.T_kf = (backupOutcome env s d guess).pose
    ∧ (checkResult p (backupOutcome env s d guess).stats = false →
        (addFrame env p s d guess).result.keyFramingReason
            = KeyFramingReason.kEstimationFailed
        ∧ (addFrame env p s d guess).result.success = false)
    ∧ (checkResult p (backupOutcome env s d guess).stats = true →
        shouldKeyFrame p env.euler (backupOutcome env s d guess).fracGood
            (backupOutcome env s d guess).pose ≠ KeyFramingReason.kNoKeyFraming →
        (addFrame env p s d guess).result.success = false
        ∧ (addFrame env p s d guess).result.pointCloud
            = refCloud env p s (primaryOutcome env s d guess).weights
        ∧ (addFrame env p s d guess).result.optimizerStatistics
            = (backupOutcome env s d guess).stats)
    ∧ (checkResult p (backupOutcome env s d guess).stats = true →
        shouldKeyFrame p env.euler (backupOutcome env s d guess).fracGood
            (backupOutcome env s d guess).pose = KeyFramingReason.kNoKeyFraming →
        (addFrame env p s d guess).result.success = true) := by
  refine ⟨?_, ?_, ?_, ?_, ?_, ?_, ?_, ?_⟩
  · simp [addFrame, href, hkf, hprev]
  · simp [addFrame, href, hkf, hprev]
  · simp [addFrame, href, hkf, hprev]
  · simp [addFrame, href, hkf, hprev]
  · simp [addFrame, href, hkf, hprev]
  · intro hc2
    simp [addFrame, href, hkf, hprev]
    simp [keyReasonOf, hc2]
  · intro hc2 hs2
    simp [addFrame, href, hkf, hprev]
    simp [keyReasonOf, hc2, hs2]
  · intro hc2 hs2
    simp [addFrame, href, hkf, hprev]
    simp [keyReasonOf, hc2, hs2]

/-- C2 witness: backup accepted but still triggering, hence
success=false. -/
theorem addFrame_keyframe_backup_witness :
    (addFrame envGood pKF sTrack 7 mId).state.ref = setTemplate sTrack.prev
    ∧ (addFrame envGood pKF sTrack 7 mId).state.prev = clearFrame sTrack.ref
    ∧ (addFrame envGood pKF sTrack 7 mId).estCalls
        = [(sTrack.ref.data, 7, matMul sTrack.T_kf mId), (sTrack.prev.data, 7, mId)]
    ∧ (addFrame envGood pKF sTrack 7 mId).result.displacement
        = (backupOutcome envGood sTrack 7 mId).pose
    ∧ (addFrame envGood pKF sTrack 7 mId).state.T_kf
        = (backupOutcome envGood sTrack 7 mId).pose :=
  have h := addFrame_keyframe_backup envGood pKF sTrack 7 mId (by decide)
    (by simp [keyReasonOf, show checkResult pKF (primaryOutcome envGood sTrack 7 mId).stats
          = true from checkResult_goodStats,
        show shouldKeyFrame pKF envGood.euler (primaryOutcome envGood sTrack 7 mId).fracGood
            (primaryOutcome envGood sTrack 7 mId).pose
          = KeyFramingReason.kLargeTranslation from skf_pKF_onesMat _ _])
    (by decide)
  ⟨h.1, h.2.1, h.2.2.1, h.2.2.2.1, h.2.2.2.2.1⟩

/-- C1 counterexample: on a validator-rejected primary estimate with an
empty previous slot, `isKeyFrame` is true (the claim says false), the
previous slot is left untouched (the claim says the current frame is
swapped into it), and the current frame is instead promoted into the
reference slot. -/
theorem reject_primary_keyframes_cex :
    (addFrame envBad pKF sNoPrev 7 mId).result.isKeyFrame = true
    ∧ (addFrame envBad pKF sNoPrev 7 mId).state.prev.id = 2
    ∧ (addFrame envBad pKF sNoPrev 7 mId).state.ref.id = 1 := by
  have hc : checkResult pKF (primaryOutcome envBad sNoPrev 7 mId).stats = false :=
    checkResult_badStats
  have href : hasTemplate sNoPrev.ref = true := by decide
  have hpe : frameEmpty sNoPrev.prev = true := by decide
  refine ⟨?_, ?_, ?_⟩ <;>
    simp [addFrame, keyReasonOf, hc, href, hpe] <;>
    simp [sNoPrev, setTemplate, setData]

/-- C1 (amended): when the validator rejects the primary estimate, the
reason is set to estimation-failed and `isKeyFrame` is true, so the call
enters the keyframe path with the point cloud extracted from the outgoing
reference; the decision engine is never invoked on the primary estimate;
with an empty previous slot, the reason stays estimation-failed, success
is false and the current frame is promoted into the reference slot; with
a non-empty previous slot, the previous frame is promoted to reference
and a single backup re-estimation with the raw guess determines the final
reason. -/
theorem addFrame_primary_rejected (env : Env) (p : AlgorithmParameters)
    (s : VOState) (d : Nat) (guess : Mat4)
    (href : hasTemplate s.ref = true)
    (hrej : checkResult p (primaryOutcome env s d guess).stats = false) :
    (addFrame env p s d guess).result.isKeyFrame = true
    ∧ (addFrame env p s d guess).result.pointCloud
        = refCloud env p s (primaryOutcome env s d guess).weights
    ∧ (frameEmpty s.prev = true →
        (addFrame env p s d guess).result.keyFramingReason
            = KeyFramingReason.kEstimationFailed
        ∧ (addFrame env p s d guess).result.success = false
        ∧ (addFrame env p s d guess).state.ref = setTemplate (setData d s.cur)
        ∧ (addFrame env p s d guess).state.T_kf = mId
        ∧ (addFrame env p s d guess).skfCalls = []
        ∧ (addFrame env p s d guess).estCalls
            = [(s.ref.data, d, matMul s.T_kf guess)])
    ∧ (frameEmpty s.prev = false →
        (addFrame env p s d guess).state.ref = setTemplate s.prev
        ∧ (addFrame env p s d guess).state.prev = clearFrame s.ref
        ∧ (addFrame env p s d guess).result.keyFramingReason
            = keyReasonOf p env (backupOutcome env s d guess)
        ∧ (addFrame env p s d guess).estCalls
            = [(s.ref.data, d, matMul s.T_kf guess), (s.prev.data, d, guess)]
        ∧ (addFrame env p s d guess).skfCalls
            = (if checkResult p (backupOutcome env s d guess).stats
               then [(backupOutcome env s d guess).pose] else [])) := by
  have hr1 : keyReasonOf p env (primaryOutcome env s d guess)
      = KeyFramingReason.kEstimationFailed := by
    simp [keyReasonOf, hrej]
  refine ⟨?_, ?_, ?_, ?_⟩
  · by_cases hpe : frameEmpty s.prev = true <;>
      simp [addFrame, href, hr1, hpe]
  · by_cases hpe : frameEmpty s.prev = true <;>
      simp [addFrame, href, hr1, hpe]
  · intro hpe
    simp [addFrame, href, hr1, hrej, hpe]
  · intro hpe
    simp [addFrame, href, hr1, hrej, hpe]

/-- C1 witness for the amended claim. -/
theorem addFrame_primary_rejected_witness :
    (addFrame envBad pKF sNoPrev 7 mId).result.isKeyFrame = true
    ∧ (addFrame envBad pKF sNoPrev 7 mId).result.keyFramingReason
        = KeyFramingReason.kEstimationFailed :=
  ⟨(addFrame_primary_rejected envBad pKF sNoPrev 7 mId (by decide)
      checkResult_badStats).1,
   ((addFrame_primary_rejected envBad pKF sNoPrev 7 mId (by decide)
      checkResult_badStats).2.2.1 (by decide)).1⟩

/-- States reached by a bootstrap call followed by a keyframe-triggering
call with no intermediate frame (the double-keyframe starvation path). -/
def s8a : VOState := (addFrame envGood pKF initState 1 mId).state

def s8b : VOState := (addFrame envGood pKF s8a 2 mId).state

/-- C8 counterexample: after the second call of a concrete two-call run
that ends in the starvation path, both the reference slot and the current
slot hold templated frames (the vacated reference is never cleared), so
the claimed "exactly one templated slot" invariant fails. -/
theorem buffer_invariant_cex :
    hasTemplate s8b.ref = true ∧ hasTemplate s8b.cur = true
    ∧ s8b.ref.id ≠ s8b.cur.id := by
  have hrefa : hasTemplate initState.ref = false := by decide
  have h1 : s8a.ref = { id := 1, data := 1, st := FrameState.fsTemplated } := by
    simp [s8a, addFrame, hrefa]
    simp [initState, setTemplate, setData]
  have h2 : s8a.cur = { id := 0, data := 0, st := FrameState.fsEmpty } := by
    simp [s8a, addFrame, hrefa]
    simp [initState]
  have h3 : s8a.prev = { id := 2, data := 0, st := FrameState.fsEmpty } := by
    simp [s8a, addFrame, hrefa]
    simp [initState]
  have hc : checkResult pKF (primaryOutcome envGood s8a 2 mId).stats = true :=
    checkResult_goodStats
  have hskf : shouldKeyFrame pKF envGood.euler
      (primaryOutcome envGood s8a 2 mId).fracGood
      (primaryOutcome envGood s8a 2 mId).pose = KeyFramingReason.kLargeTranslation :=
    skf_pKF_onesMat _ _
  have href2 : hasTemplate s8a.ref = true := by rw [h1]; decide
  have hpe : frameEmpty s8a.prev = true := by rw [h3]; decide
  refine ⟨?_, ?_, ?_⟩ <;>
    simp [s8b, addFrame, keyReasonOf, hc, hskf, href2, hpe, h1, h2,
      setTemplate, setData, hasTemplate]

/-- C8 (amended): after every completed `addFrame` call the reference
slot is templated and serves as the alignment reference, the previous
slot is never templated, and no two slots share underlying frame storage;
only the current slot can additionally remain templated (immediately
after a starvation call it holds the vacated reference). -/
theorem buffer_invariant_preserved (env : Env) (p : AlgorithmParameters)
    (s : VOState) (d : Nat) (guess : Mat4)
    (h1 : s.ref.id ≠ s.cur.id) (h2 : s.ref.id ≠ s.prev.id)
    (h3 : s.cur.id ≠ s.prev.id)
    (hprev : hasTemplate s.prev = false) :
    hasTemplate (addFrame env p s d guess).state.ref = true
    ∧ hasTemplate (addFrame env p s d guess).state.prev = false
    ∧ (addFrame env p s d guess).state.ref.id
        ≠ (addFrame env p s d guess).state.cur.id
    ∧ (addFrame env p s d guess).state.ref.id
        ≠ (addFrame env p s d guess).state.prev.id
    ∧ (addFrame env p s d guess).state.cur.id
        ≠ (addFrame env p s d guess).state.prev.id := by
  by_cases href : hasTemplate s.ref = true
  · by_cases hkf : keyReasonOf p env (primaryOutcome env s d guess)
        = KeyFramingReason.kNoKeyFraming
    · simp_all [addFrame, setData, setTemplate, hasTemplate]
      all_goals omega
    · by_cases hpe : frameEmpty s.prev = true
      · simp_all [addFrame, setData, setTemplate, hasTemplate]
        all_goals omega
      · simp_all [addFrame, setData, setTemplate, clearFrame, hasTemplate]
        all_goals omega
  · simp_all [addFrame, setData, setTemplate, hasTemplate]
    all_goals omega

/-- C8 witness for the amended claim. -/
theorem buffer_invariant_preserved_witness :
    hasTemplate (addFrame envGood pTrack sTrack 7 mId).state.ref = true
    ∧ hasTemplate (addFrame envGood pTrack sTrack 7 mId).state.prev = false
    ∧ (addFrame envGood pTrack sTrack 7 mId).state.ref.id
        ≠ (addFrame envGood pTrack sTrack 7 mId).state.cur.id
    ∧ (addFrame envGood pTrack sTrack 7 mId).state.ref.id
        ≠ (addFrame envGood pTrack sTrack 7 mId).state.prev.id
    ∧ (addFrame envGood pTrack sTrack 7 mId).state.cur.id
        ≠ (addFrame envGood pTrack sTrack 7 mId).state.prev.id :=
  buffer_invariant_preserved envGood pTrack sTrack 7 mId
    (by decide) (by decide) (by decide) (by decide)

end Bpvo
